import Mathlib

/-!
Verification of the feedback-analysis aggregation engine and its request
handlers, shallowly embedded from the Python sources
(`backend/lambda/get_analytics/lambda_function.py`,
`backend/lambda/analyze_feedback/lambda_function.py`,
`backend/utils/comprehend_helper.py`).

Python dicts are modelled as insertion-ordered association lists with unique
keys: lookup reads the first matching key, updating an existing key keeps its
position, and inserting a new key appends it at the end, which is exactly the
ordering behaviour of CPython dicts that the code relies on.  Python floats
are modelled as rationals.  The statement
`category_sentiment[category][sentiment] += 1` raises `KeyError` when the
sentiment label is not a key of the zero-seeded inner map, so the per-record
processing step is fallible and the engine returns an `Option`.
-/

namespace FeedbackAnalysis

/-- Dictionary lookup with default, `d.get(k, default)` in Python. -/
def lookupD {α : Type} : List (String × α) → String → α → α
  | [], _, d => d
  | (k', v) :: rest, k, d => if k' = k then v else lookupD rest k d

/-- Key membership test, `k in d` in Python. -/
def containsKey {α : Type} : List (String × α) → String → Bool
  | [], _ => false
  | (k', _) :: rest, k => if k' = k then true else containsKey rest k

/-- The Python idiom `d[k] = d.get(k, 0) + 1`: bump an existing entry in
place, or append a fresh entry with count 1. -/
def bumpKey : List (String × Nat) → String → List (String × Nat)
  | [], k => [(k, 1)]
  | (k', v) :: rest, k =>
      if k' = k then (k', v + 1) :: rest else (k', v) :: bumpKey rest k

/-- The Python statement `d[k] += 1`, which raises `KeyError` when `k` is not
present: `none` models the raised exception. -/
def bumpExisting : List (String × Nat) → String → Option (List (String × Nat))
  | [], _ => none
  | (k', v) :: rest, k =>
      if k' = k then some ((k', v + 1) :: rest)
      else (bumpExisting rest k).map (fun m => (k', v) :: m)

/-- The Python assignment `d[k] = v`: replace in place when present, append
when absent. -/
def setKey {α : Type} : List (String × α) → String → α → List (String × α)
  | [], k, v => [(k, v)]
  | (k', v') :: rest, k, v =>
      if k' = k then (k', v) :: rest else (k', v') :: setKey rest k v

/-- A stored feedback record, as read by `calculate_analytics`.  Every field
the engine touches is optional because the code reads each one with
`item.get(...)` and a default; `sentiment_scores` is an association list
(`[]` covers both an absent and an empty map), and `category` stands for
`item.get('metadata', {}).get('category', ...)`, so `none` covers both a
missing `metadata` map and a `metadata` map without a `category` key. -/
structure Item where
  customer_id : Option String
  sentiment : Option String
  sentiment_scores : List (String × ℚ)
  category : Option String
deriving DecidableEq

/-- The value of `item.get('sentiment', 'NEUTRAL')`. -/
def itemSentiment (it : Item) : String := it.sentiment.getD "NEUTRAL"

/-- The value of `item.get('metadata', {}).get('category', 'uncategorized')`. -/
def itemCategory (it : Item) : String := it.category.getD "uncategorized"

/-- The value of `item.get('customer_id', 'anonymous')`. -/
def itemCustomer (it : Item) : String := it.customer_id.getD "anonymous"

/-- The value of `item.get('sentiment_scores', {}).get(k, 0)`. -/
def itemScore (it : Item) (k : String) : ℚ := lookupD it.sentiment_scores k 0

/-- The zero-seeded four-label count map used for `sentiment_counts` and for
every fresh `category_sentiment` entry. -/
def zeroSeedCounts : List (String × Nat) :=
  [("POSITIVE", 0), ("NEGATIVE", 0), ("NEUTRAL", 0), ("MIXED", 0)]

/-- The zero-seeded four-dimension score accumulator `avg_scores`. -/
def zeroSeedScores : List (String × ℚ) :=
  [("positive", 0), ("negative", 0), ("neutral", 0), ("mixed", 0)]

/-- The mutable state of the aggregation loop in `calculate_analytics`. -/
structure AggState where
  sentiment_counts : List (String × Nat)
  avg_scores : List (String × ℚ)
  category_sentiment : List (String × List (String × Nat))
  customer_feedback_count : List (String × Nat)
deriving DecidableEq

/-- The state just before the `for item in items` loop. -/
def initState : AggState :=
  { sentiment_counts := zeroSeedCounts
    avg_scores := zeroSeedScores
    category_sentiment := []
    customer_feedback_count := [] }

/-- The `category_sentiment` dict right after the
`if category not in category_sentiment` block: unchanged when the category
is already a key, otherwise extended with a fresh zero-seeded entry. -/
def categoryMap0 (st : AggState) (item : Item) :
    List (String × List (String × Nat)) :=
  if containsKey st.category_sentiment (itemCategory item) then
    st.category_sentiment
  else st.category_sentiment ++ [(itemCategory item, zeroSeedCounts)]

/-- One iteration of the aggregation loop.  The final
`category_sentiment[category][sentiment] += 1` raises `KeyError` (here:
`none`) whenever the defaulted sentiment is not one of the four keys of the
zero-seeded inner map. -/
def processItem (st : AggState) (item : Item) : Option AggState :=
  match bumpExisting (lookupD (categoryMap0 st item) (itemCategory item) [])
      (itemSentiment item) with
  | none => none
  | some inner =>
      some { sentiment_counts := bumpKey st.sentiment_counts (itemSentiment item)
             avg_scores :=
               st.avg_scores.map (fun p => (p.1, p.2 + itemScore item p.1))
             category_sentiment := setKey (categoryMap0 st item)
               (itemCategory item) inner
             customer_feedback_count :=
               bumpKey st.customer_feedback_count (itemCustomer item) }

/-- The whole aggregation loop; a raised `KeyError` aborts it. -/
def processItems : AggState → List Item → Option AggState
  | st, [] => some st
  | st, it :: rest =>
      match processItem st it with
      | none => none
      | some st' => processItems st' rest

/-- Rounding to `d` decimal digits, the model of the Python `round(x, d)`. -/
def roundTo (d : Nat) (q : ℚ) : ℚ := ((round (q * 10 ^ d) : ℤ) : ℚ) / 10 ^ d

/-- The dictionary returned by `calculate_analytics`. -/
structure Analytics where
  total_feedback : Nat
  sentiment_distribution : List (String × Nat)
  sentiment_percentages : List (String × ℚ)
  average_sentiment_scores : List (String × ℚ)
  category_breakdown : List (String × List (String × Nat))
  top_customers : List (String × Nat)
  recent_feedback : List Item
deriving DecidableEq

/-- Comparison used by `sorted(..., key=lambda x: x[1], reverse=True)`:
`x` may come before `y` exactly when the count of `x` is at least the count
of `y`; with a stable sort this keeps ties in first-seen order. -/
def custRel (x y : String × Nat) : Prop := y.2 ≤ x.2

instance : DecidableRel custRel := fun x y => Nat.decLe y.2 x.2

instance : IsTotal (String × Nat) custRel := ⟨fun a b => Nat.le_total b.2 a.2⟩

instance : IsTrans (String × Nat) custRel := ⟨fun _ _ _ h1 h2 => h2.trans h1⟩

/-- The post-loop section of `calculate_analytics`: averaging, percentages,
the top-customer sort and the final result dictionary. -/
def postprocess (items : List Item) (st : AggState) : Analytics :=
  let n := items.length
  { total_feedback := n
    sentiment_distribution := st.sentiment_counts
    sentiment_percentages :=
      if 0 < n then
        st.sentiment_counts.map (fun p => (p.1, roundTo 2 ((p.2 : ℚ) / n * 100)))
      else []
    average_sentiment_scores :=
      if 0 < n then st.avg_scores.map (fun p => (p.1, roundTo 4 (p.2 / n)))
      else st.avg_scores
    category_breakdown := st.category_sentiment
    top_customers := (List.insertionSort custRel st.customer_feedback_count).take 10
    recent_feedback := items.take 10 }

/-- The aggregation engine `calculate_analytics`; `none` models an uncaught
`KeyError` escaping the function. -/
def calculate_analytics (items : List Item) : Option Analytics :=
  (processItems initState items).map (postprocess items)

/-- Sum of the counts stored in a count map. -/
def sumCounts (m : List (String × Nat)) : Nat := (m.map Prod.snd).sum

/-- Total of one score dimension across a record batch, the reference form of
the accumulation performed by the loop. -/
def scoreSum (items : List Item) (k : String) : ℚ :=
  (items.map (fun it => itemScore it k)).sum

/-- The `customer_feedback_count` dictionary built by the loop, extracted as
a standalone fold for the top-customer theorems. -/
def customerCounts (items : List Item) : List (String × Nat) :=
  items.foldl (fun m it => bumpKey m (itemCustomer it)) []

/-- Order of first appearance of each key in a sequence, the reference
ordering of the keys of a CPython dict built by repeated insertion. -/
def firstOccur (keys : List String) : List String :=
  keys.foldl (fun ks k => if k ∈ ks then ks else ks ++ [k]) []

/-- Python `len` on a string: number of characters. -/
def py_len (s : String) : Nat := s.data.length

/-- Python `str.strip()`: drop leading and trailing whitespace. -/
def py_strip (s : String) : String :=
  ⟨((s.data.dropWhile Char.isWhitespace).reverse.dropWhile
      Char.isWhitespace).reverse⟩

/-- The configured maximum feedback length (`MAX_TEXT_LENGTH` default). -/
def MAX_TEXT_LENGTH : Nat := 5000

/-- Default scan limit of the analytics operation. -/
def DEFAULT_LIMIT : Nat := 50

/-- Maximum scan limit of the analytics operation. -/
def MAX_LIMIT : Nat := 1000

/-- The validator `validate_text_input` shared by
`analyze_feedback/lambda_function.py` (at the configured maximum) and
`utils/comprehend_helper.py` (maximum as a parameter). -/
def validate_text_input (text : String) (max_length : Nat) : Bool × String :=
  if text = "" ∨ py_len (py_strip text) = 0 then
    (false, "Text cannot be empty")
  else if max_length < py_len text then
    (false, "Text exceeds maximum length of " ++ toString max_length ++
      " characters")
  else (true, "")

/-- A parsed request body; every field is read with a default, like the
Python dict it stands for. -/
structure ReqBody where
  feedback : Option String := none
  customer_id : Option String := none
  category : Option String := none
  limit : Option Nat := none
deriving DecidableEq

/-- The transport body of an event: absent, a pre-decoded structure, or a
serialized string.  A string body is represented by the outcome of
`json.loads` on it, `none` standing for a string that cannot be parsed. -/
inductive BodyVal where
  | absent : BodyVal
  | strBody : Option ReqBody → BodyVal
  | objBody : ReqBody → BodyVal
deriving DecidableEq

/-- An API-gateway event, restricted to the fields the handlers read. -/
structure Event where
  httpMethod : Option String
  body : BodyVal
deriving DecidableEq

/-- The analytics payload attached to a 200 response of the analytics
operation: either the `get_empty_analytics()` fallback (which carries only a
timestamp) or a computed result with timestamp and `total_retrieved`. -/
inductive GABody where
  | emptyA : String → GABody
  | fullA : Analytics → String → Nat → GABody
deriving DecidableEq

/-- A response body: empty, `{error: message}`, a stored feedback record, or
an analytics payload. -/
inductive RespBody where
  | emptyB : RespBody
  | errorB : String → RespBody
  | recordB : Item → RespBody
  | analyticsB : GABody → RespBody
deriving DecidableEq

/-- The fixed cross-origin headers attached to every response. -/
def corsHeaders : List (String × String) :=
  [("Content-Type", "application/json"),
   ("Access-Control-Allow-Origin", "*"),
   ("Access-Control-Allow-Headers",
     "Content-Type,X-Amz-Date,Authorization,X-Api-Key,X-Amz-Security-Token"),
   ("Access-Control-Allow-Methods", "GET,POST,PUT,DELETE,OPTIONS")]

/-- An API-gateway response. -/
structure Response where
  statusCode : Nat
  headers : List (String × String)
  body : RespBody
deriving DecidableEq

/-- The `cors_response` helper. -/
def cors_response (status : Nat) (b : RespBody) : Response :=
  { statusCode := status, headers := corsHeaders, body := b }

/-- The `error_response` helper: `{error: message}` with the given status. -/
def error_response (msg : String) (status : Nat) : Response :=
  cors_response status (RespBody.errorB msg)

/-- The `parse_request_body` of the analyze operation: an unparseable string
body raises (modelled as `Except.error` carrying the decoder message). -/
def analyze_parse_request_body (event : Event) : Except String ReqBody :=
  match event.body with
  | BodyVal.absent => Except.ok {}
  | BodyVal.objBody b => Except.ok b
  | BodyVal.strBody (some b) => Except.ok b
  | BodyVal.strBody none => Except.error "Expecting value"

/-- The `lambda_handler` of the analyze operation.  The external analysis
(`analyze_feedback`, four NLP calls plus record assembly) is a parameter
taking the text, customer id and metadata category; any exception it raises
is an `Except.error` and, like a parse failure, is caught by the outer
handler and turned into a 500 response.  A storage failure is swallowed, so
storage does not appear. -/
def analyze_lambda_handler
    (analyzeFn : String → String → Option String → Except String Item)
    (event : Event) : Response :=
  if event.httpMethod = some "OPTIONS" then cors_response 200 RespBody.emptyB
  else
    match analyze_parse_request_body event with
    | Except.error e => error_response ("Internal server error: " ++ e) 500
    | Except.ok body =>
        let text := body.feedback.getD ""
        let v := validate_text_input text MAX_TEXT_LENGTH
        if v.1 = false then error_response v.2 400
        else
          match analyzeFn text (body.customer_id.getD "anonymous") body.category with
          | Except.error e =>
              error_response ("Internal server error: " ++ e) 500
          | Except.ok it => cors_response 200 (RespBody.recordB it)

/-- The `parse_request_body` of the analytics operation: an unparseable
string body degrades to the empty dict instead of raising. -/
def ga_parse_request_body (event : Event) : ReqBody :=
  match event.body with
  | BodyVal.absent => {}
  | BodyVal.objBody b => b
  | BodyVal.strBody (some b) => b
  | BodyVal.strBody none => {}

/-- The `get_analytics` function: the store scan is a parameter from limit to
items or a raised error; a scan failure, or a `KeyError` escaping
`calculate_analytics`, degrades to the `get_empty_analytics()` fallback. -/
def get_analytics (scanFn : Nat → Except String (List Item)) (now : String)
    (limit : Nat) : GABody :=
  match scanFn limit with
  | Except.error _ => GABody.emptyA now
  | Except.ok items =>
      match calculate_analytics items with
      | none => GABody.emptyA now
      | some a => GABody.fullA a now items.length

/-- The `lambda_handler` of the analytics operation. -/
def ga_lambda_handler (scanFn : Nat → Except String (List Item))
    (now : String) (event : Event) : Response :=
  if event.httpMethod = some "OPTIONS" then cors_response 200 RespBody.emptyB
  else
    let body := ga_parse_request_body event
    let limit := min (body.limit.getD DEFAULT_LIMIT) MAX_LIMIT
    cors_response 200 (RespBody.analyticsB (get_analytics scanFn now limit))

/-- Erase the caller-supplied timestamp of an analytics payload, for the
idempotence statement. -/
def eraseTimestamp : GABody → GABody
  | GABody.emptyA _ => GABody.emptyA ""
  | GABody.fullA a _ n => GABody.fullA a "" n

/-- A record with a sentiment label outside the fixed four-way enumeration. -/
def unknownSentimentItem : Item :=
  { customer_id := none
    sentiment := some "UNKNOWN"
    sentiment_scores := []
    category := none }

/-- A positive record of customer `A`. -/
def itemA : Item :=
  { customer_id := some "A"
    sentiment := some "POSITIVE"
    sentiment_scores := []
    category := none }

/-- A negative record of customer `B`. -/
def itemB : Item :=
  { customer_id := some "B"
    sentiment := some "NEGATIVE"
    sentiment_scores := []
    category := none }

/-- The analytics of the single-record batch `[itemA]`. -/
def analyticsA : Analytics :=
  { total_feedback := 1
    sentiment_distribution :=
      [("POSITIVE", 1), ("NEGATIVE", 0), ("NEUTRAL", 0), ("MIXED", 0)]
    sentiment_percentages :=
      [("POSITIVE", 100), ("NEGATIVE", 0), ("NEUTRAL", 0), ("MIXED", 0)]
    average_sentiment_scores :=
      [("positive", 0), ("negative", 0), ("neutral", 0), ("mixed", 0)]
    category_breakdown :=
      [("uncategorized",
        [("POSITIVE", 1), ("NEGATIVE", 0), ("NEUTRAL", 0), ("MIXED", 0)])]
    top_customers := [("A", 1)]
    recent_feedback := [itemA] }

/-- The positive record of the spec example, scores 0.9/0.1/0/0. -/
def posItem : Item :=
  { customer_id := none
    sentiment := some "POSITIVE"
    sentiment_scores :=
      [("positive", 9/10), ("negative", 1/10), ("neutral", 0), ("mixed", 0)]
    category := none }

/-- The negative record of the spec example, scores 0.1/0.9/0/0. -/
def negItem : Item :=
  { customer_id := none
    sentiment := some "NEGATIVE"
    sentiment_scores :=
      [("positive", 1/10), ("negative", 9/10), ("neutral", 0), ("mixed", 0)]
    category := none }

/-- The analytics of the batch `[posItem, negItem]`. -/
def analyticsPN : Analytics :=
  { total_feedback := 2
    sentiment_distribution :=
      [("POSITIVE", 1), ("NEGATIVE", 1), ("NEUTRAL", 0), ("MIXED", 0)]
    sentiment_percentages :=
      [("POSITIVE", 50), ("NEGATIVE", 50), ("NEUTRAL", 0), ("MIXED", 0)]
    average_sentiment_scores :=
      [("positive", 1/2), ("negative", 1/2), ("neutral", 0), ("mixed", 0)]
    category_breakdown :=
      [("uncategorized",
        [("POSITIVE", 1), ("NEGATIVE", 1), ("NEUTRAL", 0), ("MIXED", 0)])]
    top_customers := [("anonymous", 2)]
    recent_feedback := [posItem, negItem] }

/-- A record with no sentiment field at all. -/
def noSentItem : Item :=
  { customer_id := none
    sentiment := none
    sentiment_scores := []
    category := none }

/-- The analytics of the batch `[noSentItem]`: the record counts as
`NEUTRAL`. -/
def analyticsNS : Analytics :=
  { total_feedback := 1
    sentiment_distribution :=
      [("POSITIVE", 0), ("NEGATIVE", 0), ("NEUTRAL", 1), ("MIXED", 0)]
    sentiment_percentages :=
      [("POSITIVE", 0), ("NEGATIVE", 0), ("NEUTRAL", 100), ("MIXED", 0)]
    average_sentiment_scores :=
      [("positive", 0), ("negative", 0), ("neutral", 0), ("mixed", 0)]
    category_breakdown :=
      [("uncategorized",
        [("POSITIVE", 0), ("NEGATIVE", 0), ("NEUTRAL", 1), ("MIXED", 0)])]
    top_customers := [("anonymous", 1)]
    recent_feedback := [noSentItem] }

/-- A positive record with positive score 0.8, from the spec averaging
example. -/
def score08Item : Item :=
  { customer_id := none
    sentiment := some "POSITIVE"
    sentiment_scores := [("positive", 4/5)]
    category := none }

/-- A positive record with positive score 0.4, from the spec averaging
example. -/
def score04Item : Item :=
  { customer_id := none
    sentiment := some "POSITIVE"
    sentiment_scores := [("positive", 2/5)]
    category := none }

/-- The analytics of the batch `[score08Item, score04Item]`: the average
positive score is 0.6. -/
def analytics84 : Analytics :=
  { total_feedback := 2
    sentiment_distribution :=
      [("POSITIVE", 2), ("NEGATIVE", 0), ("NEUTRAL", 0), ("MIXED", 0)]
    sentiment_percentages :=
      [("POSITIVE", 100), ("NEGATIVE", 0), ("NEUTRAL", 0), ("MIXED", 0)]
    average_sentiment_scores :=
      [("positive", 3/5), ("negative", 0), ("neutral", 0), ("mixed", 0)]
    category_breakdown :=
      [("uncategorized",
        [("POSITIVE", 2), ("NEGATIVE", 0), ("NEUTRAL", 0), ("MIXED", 0)])]
    top_customers := [("anonymous", 2)]
    recent_feedback := [score08Item, score04Item] }

/-- C1: the spec requires the engine to tolerate a record whose sentiment is
outside the fixed four-way enumeration, still counting it under its dynamic
key and returning a result.  The code instead raises `KeyError` at
`category_sentiment[category][sentiment] += 1`, because the per-category
inner map is seeded with only the four fixed labels; on a single record with
sentiment `UNKNOWN` the engine fails instead of returning a result. -/
theorem claim1_unknown_sentiment_fails :
    calculate_analytics [unknownSentimentItem] = none := by
  decide

/-- C6: on the empty record sequence the engine returns a result with
`total_feedback = 0`, the four fixed sentiment counts at 0, the four average
scores at 0, an empty category breakdown, an empty top-customers list and an
empty recent-feedback list, with no division error. -/
theorem claim6_empty_input :
    calculate_analytics [] =
      some { total_feedback := 0
             sentiment_distribution :=
               [("POSITIVE", 0), ("NEGATIVE", 0), ("NEUTRAL", 0), ("MIXED", 0)]
             sentiment_percentages := []
             average_sentiment_scores :=
               [("positive", 0), ("negative", 0), ("neutral", 0), ("mixed", 0)]
             category_breakdown := []
             top_customers := []
             recent_feedback := [] } := by
  decide

/-- C2 (counterexample): on a string body that cannot be parsed, the analyze
handler returns status 500, not the 400 the claim states: the `json.loads`
failure is caught by the generic exception handler, which answers
`Internal server error` with status 500. -/
theorem claim2_counterexample :
    (analyze_lambda_handler (fun _ _ _ => Except.error "boom")
        { httpMethod := some "POST", body := BodyVal.strBody none }).statusCode
      = 500 ∧
    (analyze_lambda_handler (fun _ _ _ => Except.error "boom")
        { httpMethod := some "POST", body := BodyVal.strBody none }).statusCode
      ≠ 400 := by
  decide

/-- C2 (amended): when the transport body is a serialized string that cannot
be parsed, the analyze operation fails with a 500 response (not 400) whose
body is `{error: message}`, for every external analyzer and non-OPTIONS
method; the analytics operation instead returns a 200 response carrying a
well-formed analytics payload, for every store scan outcome. -/
theorem claim2_malformed_body :
    ∀ (analyzeFn : String → String → Option String → Except String Item)
      (scanFn : Nat → Except String (List Item)) (now : String)
      (m : Option String), m ≠ some "OPTIONS" →
      ((analyze_lambda_handler analyzeFn
          { httpMethod := m, body := BodyVal.strBody none }).statusCode = 500
        ∧ ∃ msg, (analyze_lambda_handler analyzeFn
            { httpMethod := m, body := BodyVal.strBody none }).body
          = RespBody.errorB msg)
      ∧ ((ga_lambda_handler scanFn now
            { httpMethod := m, body := BodyVal.strBody none }).statusCode = 200
        ∧ ∃ g, (ga_lambda_handler scanFn now
            { httpMethod := m, body := BodyVal.strBody none }).body
          = RespBody.analyticsB g) := by
  intro analyzeFn scanFn now m hm
  have h1 : analyze_lambda_handler analyzeFn
      { httpMethod := m, body := BodyVal.strBody none }
      = error_response "Internal server error: Expecting value" 500 := by
    unfold analyze_lambda_handler
    rw [if_neg hm]
    rfl
  have h2 : ga_lambda_handler scanFn now
      { httpMethod := m, body := BodyVal.strBody none }
      = cors_response 200
          (RespBody.analyticsB (get_analytics scanFn now 50)) := by
    unfold ga_lambda_handler
    rw [if_neg hm]
    rfl
  exact ⟨⟨by rw [h1]; rfl, "Internal server error: Expecting value",
      by rw [h1]; rfl⟩,
    by rw [h2]; rfl, get_analytics scanFn now 50, by rw [h2]; rfl⟩

/-- C2 (witness): the amended statement instantiated at a concrete analyzer,
scan, timestamp and POST method. -/
theorem claim2_witness :
    ((analyze_lambda_handler (fun _ _ _ => Except.error "boom")
        { httpMethod := some "POST", body := BodyVal.strBody none }).statusCode
        = 500
      ∧ ∃ msg, (analyze_lambda_handler (fun _ _ _ => Except.error "boom")
          { httpMethod := some "POST", body := BodyVal.strBody none }).body
        = RespBody.errorB msg)
    ∧ ((ga_lambda_handler (fun _ => Except.ok [])
          "2024-01-01T00:00:00"
          { httpMethod := some "POST", body := BodyVal.strBody none }).statusCode
        = 200
      ∧ ∃ g, (ga_lambda_handler (fun _ => Except.ok [])
          "2024-01-01T00:00:00"
          { httpMethod := some "POST", body := BodyVal.strBody none }).body
        = RespBody.analyticsB g) :=
  claim2_malformed_body (fun _ _ _ => Except.error "boom")
    (fun _ => Except.ok []) "2024-01-01T00:00:00" (some "POST") (by decide)

/-- C7 (counterexample): a whitespace-only text longer than the configured
maximum hits the empty-text branch, not the too-long branch, so the claim
that any text whose untrimmed length exceeds the maximum fails with the
too-long error is false at three spaces with maximum 2. -/
theorem claim7_counterexample :
    py_len (py_strip "   ") = 0 ∧ 2 < py_len "   " ∧
    validate_text_input "   " 2 = (false, "Text cannot be empty") ∧
    validate_text_input "   " 2 ≠
      (false, "Text exceeds maximum length of 2 characters") := by
  decide

/-- C7 (amended): validation succeeds exactly on text that is non-empty
after trimming and whose untrimmed length is at most the configured maximum;
it fails with the empty-text error whenever the trimmed text is empty; and it
fails with the too-long error when the untrimmed length exceeds the maximum
and the trimmed text is non-empty (the empty-text check runs first). -/
theorem claim7_validation :
    ∀ (text : String) (max_length : Nat),
      (py_len (py_strip text) ≠ 0 → py_len text ≤ max_length →
        validate_text_input text max_length = (true, "")) ∧
      (py_len (py_strip text) = 0 →
        validate_text_input text max_length = (false, "Text cannot be empty")) ∧
      (py_len (py_strip text) ≠ 0 → max_length < py_len text →
        validate_text_input text max_length =
          (false, "Text exceeds maximum length of " ++ toString max_length ++
            " characters")) := by
  intro text max_length
  have hempty : text = "" → py_len (py_strip text) = 0 := by
    intro h; subst h; rfl
  refine ⟨?_, ?_, ?_⟩
  · intro h1 h2
    have hne : ¬ (text = "" ∨ py_len (py_strip text) = 0) := by
      rintro (h | h)
      · exact h1 (hempty h)
      · exact h1 h
    simp only [validate_text_input, if_neg hne, if_neg (not_lt.mpr h2)]
  · intro h
    simp only [validate_text_input, if_pos (Or.inr h)]
  · intro h1 h2
    have hne : ¬ (text = "" ∨ py_len (py_strip text) = 0) := by
      rintro (h | h)
      · exact h1 (hempty h)
      · exact h1 h
    simp only [validate_text_input, if_neg hne, if_pos h2]

/-- C7 (witness): the amended statement instantiated on a valid text, a
whitespace-only text and an overlong text. -/
theorem claim7_witness :
    validate_text_input "ok" 5 = (true, "") ∧
    validate_text_input " " 5 = (false, "Text cannot be empty") ∧
    validate_text_input "abc" 2 =
      (false, "Text exceeds maximum length of 2 characters") :=
  ⟨(claim7_validation "ok" 5).1 (by decide) (by decide),
   (claim7_validation " " 5).2.1 (by decide),
   (claim7_validation "abc" 2).2.2 (by decide) (by decide)⟩

/-- Lookup after a count bump: the bumped key gains one, others are
unchanged. -/
theorem lookupD_bumpKey (k s : String) :
    ∀ m : List (String × Nat),
      lookupD (bumpKey m k) s 0 =
        lookupD m s 0 + (if k = s then 1 else 0) := by
  intro m
  induction m with
  | nil => simp [bumpKey, lookupD]
  | cons p rest ih =>
    obtain ⟨k', v⟩ := p
    by_cases h : k' = k
    · subst h
      by_cases h2 : k' = s
      · subst h2
        simp [bumpKey, lookupD]
      · simp [bumpKey, lookupD, h2]
    · by_cases h2 : k' = s
      · have hks : k ≠ s := fun hh => h (by rw [h2, hh])
        simp [bumpKey, lookupD, h, h2, hks, Ne.symm hks]
      · simp [bumpKey, lookupD, h, h2, ih]

/-- A count bump raises the total of the map by one. -/
theorem sumCounts_bumpKey (k : String) :
    ∀ m : List (String × Nat), sumCounts (bumpKey m k) = sumCounts m + 1 := by
  intro m
  induction m with
  | nil => simp [bumpKey, sumCounts]
  | cons p rest ih =>
    obtain ⟨k', v⟩ := p
    by_cases h : k' = k
    · simp only [bumpKey, if_pos h, sumCounts, List.map_cons, List.sum_cons]
      omega
    · simp only [bumpKey, if_neg h]
      simp only [sumCounts, List.map_cons, List.sum_cons] at ih ⊢
      omega

/-- Key membership agrees with membership in the key projection. -/
theorem containsKey_iff {α : Type} (k : String) :
    ∀ m : List (String × α), containsKey m k = true ↔ k ∈ m.map Prod.fst := by
  intro m
  induction m with
  | nil => simp [containsKey]
  | cons p rest ih =>
    obtain ⟨k', v⟩ := p
    by_cases h : k' = k
    · simp [containsKey, h]
    · have h2 : ¬ k = k' := fun hh => h hh.symm
      simp [containsKey, h, h2, ih]

/-- A count bump keeps the key sequence, appending the key when fresh. -/
theorem mapFst_bumpKey (k : String) :
    ∀ m : List (String × Nat),
      (bumpKey m k).map Prod.fst =
        if containsKey m k then m.map Prod.fst else m.map Prod.fst ++ [k] := by
  intro m
  induction m with
  | nil => simp [bumpKey, containsKey]
  | cons p rest ih =>
    obtain ⟨k', v⟩ := p
    by_cases h : k' = k
    · simp [bumpKey, containsKey, h]
    · simp only [bumpKey, containsKey, if_neg h, List.map_cons, ih]
      split_ifs <;> simp

/-- Assignment followed by lookup at the same key yields the value. -/
theorem lookupD_setKey_same {α : Type} (k : String) (v d : α) :
    ∀ m : List (String × α), lookupD (setKey m k v) k d = v := by
  intro m
  induction m with
  | nil => simp [setKey, lookupD]
  | cons p rest ih =>
    obtain ⟨k', v'⟩ := p
    by_cases h : k' = k <;> simp [setKey, lookupD, h, ih]

/-- Assignment leaves lookups at other keys unchanged. -/
theorem lookupD_setKey_ne {α : Type} {k s : String} (hne : s ≠ k) (v d : α) :
    ∀ m : List (String × α), lookupD (setKey m k v) s d = lookupD m s d := by
  intro m
  have hks : k ≠ s := fun hh => hne hh.symm
  induction m with
  | nil => simp [setKey, lookupD, hks]
  | cons p rest ih =>
    obtain ⟨k', v'⟩ := p
    by_cases h : k' = k
    · subst h
      simp [setKey, lookupD, hks]
    · by_cases h2 : k' = s <;> simp [setKey, lookupD, h, h2, ih, hne]

/-- Lookup skips a prefix that does not contain the key. -/
theorem lookupD_append_of_not_contains {α : Type} (k : String) (d : α)
    (l : List (String × α)) :
    ∀ m : List (String × α), containsKey m k = false →
      lookupD (m ++ l) k d = lookupD l k d := by
  intro m
  induction m with
  | nil => simp
  | cons p rest ih =>
    obtain ⟨k', v⟩ := p
    intro h
    by_cases hk : k' = k
    · simp [containsKey, hk] at h
    · simp only [containsKey, if_neg hk] at h
      simp [lookupD, hk, ih h]

/-- Lookup of an absent key gives the default. -/
theorem lookupD_eq_default_of_not_contains {α : Type} (k : String) (d : α) :
    ∀ m : List (String × α), containsKey m k = false → lookupD m k d = d := by
  intro m
  induction m with
  | nil => intro _; rfl
  | cons p rest ih =>
    obtain ⟨k', v⟩ := p
    intro h
    by_cases hk : k' = k
    · simp [containsKey, hk] at h
    · simp only [containsKey, if_neg hk] at h
      simp [lookupD, hk, ih h]

/-- Appending an entry with a different key does not change a lookup. -/
theorem lookupD_append_ne {α : Type} {k k0 : String} (h : k ≠ k0) (v : α)
    (d : α) :
    ∀ m : List (String × α), lookupD (m ++ [(k0, v)]) k d = lookupD m k d := by
  intro m
  have h0 : ¬ k0 = k := fun hh => h hh.symm
  induction m with
  | nil => simp [lookupD, h0]
  | cons p rest ih =>
    obtain ⟨k', v'⟩ := p
    by_cases hk : k' = k <;> simp [lookupD, hk, ih]

/-- Every lookup in the zero-seeded count map yields zero. -/
theorem lookupD_zeroSeedCounts (s : String) : lookupD zeroSeedCounts s 0 = 0 := by
  simp only [zeroSeedCounts, lookupD]
  split_ifs <;> rfl

/-- Every lookup in the zero-seeded score map yields zero. -/
theorem lookupD_zeroSeedScores (s : String) :
    lookupD zeroSeedScores s (0 : ℚ) = 0 := by
  simp only [zeroSeedScores, lookupD]
  split_ifs <;> rfl

/-- Lookup after a successful in-place bump: the bumped key gains one,
others are unchanged. -/
theorem lookupD_bumpExisting (k s : String) :
    ∀ (m m' : List (String × Nat)), bumpExisting m k = some m' →
      lookupD m' s 0 = lookupD m s 0 + (if k = s then 1 else 0) := by
  intro m
  induction m with
  | nil => intro m' h; simp [bumpExisting] at h
  | cons p rest ih =>
    obtain ⟨k', v⟩ := p
    intro m' h
    by_cases hk : k' = k
    · subst hk
      simp [bumpExisting] at h
      subst h
      by_cases h2 : k' = s
      · subst h2
        simp [lookupD]
      · simp [lookupD, h2]
    · simp only [bumpExisting, if_neg hk, Option.map_eq_some'] at h
      obtain ⟨m'', hm'', rfl⟩ := h
      by_cases h2 : k' = s
      · have hks : k ≠ s := fun hh => hk (by rw [h2, hh])
        simp [lookupD, h2, hks]
      · simp [lookupD, h2, ih m'' hm'']

/-- A count bump preserves distinctness of the keys. -/
theorem nodup_mapFst_bumpKey (k : String) (m : List (String × Nat))
    (h : (m.map Prod.fst).Nodup) : ((bumpKey m k).map Prod.fst).Nodup := by
  rw [mapFst_bumpKey]
  split_ifs with hc
  · exact h
  · have hk : k ∉ m.map Prod.fst := fun hmem =>
      hc ((containsKey_iff k m).mpr hmem)
    exact h.append (List.nodup_singleton k)
      (fun x hx hxk => hk (by rwa [List.mem_singleton.mp hxk] at hx))

/-- Lookup in a value-mapped association list with distinct keys recovers
the image of the stored value. -/
theorem lookupD_map_of_mem {β : Type} (g : Nat → β) (d : β) :
    ∀ (m : List (String × Nat)) (k : String) (c : Nat),
      (m.map Prod.fst).Nodup → (k, c) ∈ m →
      lookupD (m.map (fun p => (p.1, g p.2))) k d = g c := by
  intro m
  induction m with
  | nil => intro k c _ hmem; simp at hmem
  | cons p rest ih =>
    obtain ⟨k', v⟩ := p
    intro k c hnd hmem
    rcases List.mem_cons.mp hmem with heq | hmem'
    · obtain ⟨h1, h2⟩ := Prod.mk.injEq .. ▸ heq
      subst h1; subst h2
      simp [lookupD]
    · have hkrest : k ∈ rest.map Prod.fst :=
        List.mem_map.mpr ⟨(k, c), hmem', rfl⟩
      have hne : k' ≠ k := by
        intro hh
        subst hh
        exact (List.nodup_cons.mp hnd).1 hkrest
      simp only [List.map_cons, lookupD, if_neg hne]
      exact ih k c (List.nodup_cons.mp hnd).2 hmem'

/-- Successful processing of one record, unpacked: the inner bump succeeded
and the next state is the four updated dictionaries. -/
theorem processItem_some {st st' : AggState} {it : Item}
    (h : processItem st it = some st') :
    ∃ inner,
      bumpExisting (lookupD (categoryMap0 st it) (itemCategory it) [])
          (itemSentiment it) = some inner ∧
      st' = { sentiment_counts := bumpKey st.sentiment_counts (itemSentiment it)
              avg_scores :=
                st.avg_scores.map (fun p => (p.1, p.2 + itemScore it p.1))
              category_sentiment := setKey (categoryMap0 st it)
                (itemCategory it) inner
              customer_feedback_count :=
                bumpKey st.customer_feedback_count (itemCustomer it) } := by
  rcases hbe : bumpExisting (lookupD (categoryMap0 st it) (itemCategory it) [])
      (itemSentiment it) with _ | inner
  · rw [processItem, hbe] at h
    exact absurd h (by simp)
  · rw [processItem, hbe] at h
    exact ⟨inner, rfl, (Option.some.inj h).symm⟩

/-- Along a successful run of the loop, each sentiment count grows by the
number of records bearing that defaulted sentiment. -/
theorem processItems_sentiment_counts :
    ∀ (items : List Item) {st st' : AggState},
      processItems st items = some st' → ∀ s : String,
        lookupD st'.sentiment_counts s 0 =
          lookupD st.sentiment_counts s 0 +
            items.countP (fun it => itemSentiment it == s) := by
  intro items
  induction items with
  | nil =>
    intro st st' h s
    simp only [processItems, Option.some.injEq] at h
    subst h
    simp
  | cons it rest ih =>
    intro st st' h s
    rcases hp : processItem st it with _ | st1
    · rw [processItems, hp] at h; exact absurd h (by simp)
    · rw [processItems, hp] at h
      obtain ⟨inner, _, hst1⟩ := processItem_some hp
      have hrec := ih h s
      rw [hrec, hst1]
      simp only [lookupD_bumpKey, List.countP_cons]
      by_cases hs : itemSentiment it = s <;> simp [hs] <;> omega

/-- Along a successful run of the loop, the total of the sentiment counts
grows by the number of records processed. -/
theorem processItems_total :
    ∀ (items : List Item) {st st' : AggState},
      processItems st items = some st' →
        sumCounts st'.sentiment_counts =
          sumCounts st.sentiment_counts + items.length := by
  intro items
  induction items with
  | nil =>
    intro st st' h
    simp only [processItems, Option.some.injEq] at h
    subst h
    simp
  | cons it rest ih =>
    intro st st' h
    rcases hp : processItem st it with _ | st1
    · rw [processItems, hp] at h; exact absurd h (by simp)
    · rw [processItems, hp] at h
      obtain ⟨inner, _, hst1⟩ := processItem_some hp
      have hrec := ih h
      rw [hrec, hst1]
      simp only [sumCounts_bumpKey, List.length_cons]
      omega

/-- Along a successful run of the loop, the score accumulator gains, in each
dimension it holds, the summed score of the processed records. -/
theorem processItems_avg :
    ∀ (items : List Item) {st st' : AggState},
      processItems st items = some st' →
        st'.avg_scores =
          st.avg_scores.map (fun p => (p.1, p.2 + scoreSum items p.1)) := by
  intro items
  induction items with
  | nil =>
    intro st st' h
    simp only [processItems, Option.some.injEq] at h
    subst h
    simp [scoreSum]
  | cons it rest ih =>
    intro st st' h
    rcases hp : processItem st it with _ | st1
    · rw [processItems, hp] at h; exact absurd h (by simp)
    · rw [processItems, hp] at h
      obtain ⟨inner, _, hst1⟩ := processItem_some hp
      have hrec := ih h
      rw [hrec, hst1]
      simp only [List.map_map]
      congr 1
      funext p
      simp [Function.comp, scoreSum, add_assoc]

/-- Along a successful run of the loop, the customer dictionary is the bump
fold over the processed records. -/
theorem processItems_customer :
    ∀ (items : List Item) {st st' : AggState},
      processItems st items = some st' →
        st'.customer_feedback_count =
          items.foldl (fun m it => bumpKey m (itemCustomer it))
            st.customer_feedback_count := by
  intro items
  induction items with
  | nil =>
    intro st st' h
    simp only [processItems, Option.some.injEq] at h
    subst h
    rfl
  | cons it rest ih =>
    intro st st' h
    rcases hp : processItem st it with _ | st1
    · rw [processItems, hp] at h; exact absurd h (by simp)
    · rw [processItems, hp] at h
      obtain ⟨inner, _, hst1⟩ := processItem_some hp
      rw [ih h, hst1]
      rfl

/-- Processing one record adds one to exactly the breakdown cell of its
defaulted category and defaulted sentiment. -/
theorem processItem_category_lookup {st st' : AggState} {it : Item}
    (h : processItem st it = some st') (c s : String) :
    lookupD (lookupD st'.category_sentiment c []) s 0 =
      lookupD (lookupD st.category_sentiment c []) s 0 +
        (if itemCategory it = c ∧ itemSentiment it = s then 1 else 0) := by
  obtain ⟨inner, hbe, rfl⟩ := processItem_some h
  by_cases hc : itemCategory it = c
  · subst hc
    have hsame :
        lookupD (lookupD (categoryMap0 st it) (itemCategory it) []) s 0 =
          lookupD (lookupD st.category_sentiment (itemCategory it) []) s 0 := by
      unfold categoryMap0
      split_ifs with hcont
      · rfl
      · have hcf : containsKey st.category_sentiment (itemCategory it)
            = false := by
          revert hcont
          cases containsKey st.category_sentiment (itemCategory it) <;> simp
        rw [lookupD_append_of_not_contains _ _ _ _ hcf,
          lookupD_eq_default_of_not_contains _ _ _ hcf]
        simp [lookupD, lookupD_zeroSeedCounts]
    simp only [lookupD_setKey_same,
      lookupD_bumpExisting (itemSentiment it) s _ inner hbe, hsame]
    by_cases hs : itemSentiment it = s <;> simp [hs]
  · have hcc : c ≠ itemCategory it := fun hh => hc hh.symm
    rw [lookupD_setKey_ne hcc]
    have hsame : lookupD (categoryMap0 st it) c [] =
        lookupD st.category_sentiment c [] := by
      unfold categoryMap0
      split_ifs
      · rfl
      · exact lookupD_append_ne hcc _ _ _
    rw [hsame]
    simp [hc]

/-- Along a successful run of the loop, each breakdown cell grows by the
number of records with that category and sentiment. -/
theorem processItems_category :
    ∀ (items : List Item) {st st' : AggState},
      processItems st items = some st' → ∀ c s : String,
        lookupD (lookupD st'.category_sentiment c []) s 0 =
          lookupD (lookupD st.category_sentiment c []) s 0 +
            items.countP
              (fun it => itemCategory it == c && itemSentiment it == s) := by
  intro items
  induction items with
  | nil =>
    intro st st' h c s
    simp only [processItems, Option.some.injEq] at h
    subst h
    simp
  | cons it rest ih =>
    intro st st' h c s
    rcases hp : processItem st it with _ | st1
    · rw [processItems, hp] at h; exact absurd h (by simp)
    · rw [processItems, hp] at h
      have hrec := ih h c s
      have hstep := processItem_category_lookup hp c s
      rw [hrec, hstep, List.countP_cons]
      by_cases hc : itemCategory it = c <;>
        by_cases hs : itemSentiment it = s <;>
        simp [hc, hs] <;> omega

/-- Along a successful run of the loop, distinctness of the sentiment-count
keys is preserved. -/
theorem processItems_nodup :
    ∀ (items : List Item) {st st' : AggState},
      processItems st items = some st' →
        (st.sentiment_counts.map Prod.fst).Nodup →
        (st'.sentiment_counts.map Prod.fst).Nodup := by
  intro items
  induction items with
  | nil =>
    intro st st' h hnd
    simp only [processItems, Option.some.injEq] at h
    subst h
    exact hnd
  | cons it rest ih =>
    intro st st' h hnd
    rcases hp : processItem st it with _ | st1
    · rw [processItems, hp] at h; exact absurd h (by simp)
    · rw [processItems, hp] at h
      obtain ⟨inner, _, hst1⟩ := processItem_some hp
      refine ih h ?_
      rw [hst1]
      exact nodup_mapFst_bumpKey _ _ hnd

/-- Lookup through a bump fold counts the occurrences of the key. -/
theorem lookupD_foldl_bumpKey (f : Item → String) (k : String) :
    ∀ (items : List Item) (acc : List (String × Nat)),
      lookupD (items.foldl (fun m it => bumpKey m (f it)) acc) k 0 =
        lookupD acc k 0 + items.countP (fun it => f it == k) := by
  intro items
  induction items with
  | nil => intro acc; simp
  | cons it rest ih =>
    intro acc
    simp only [List.foldl_cons, List.countP_cons, ih, lookupD_bumpKey]
    by_cases hf : f it = k <;> simp [hf] <;> omega

/-- The key sequence of a bump fold is the first-seen key fold. -/
theorem mapFst_foldl_bumpKey (f : Item → String) :
    ∀ (items : List Item) (acc : List (String × Nat)),
      (items.foldl (fun m it => bumpKey m (f it)) acc).map Prod.fst =
        items.foldl (fun ks it => if f it ∈ ks then ks else ks ++ [f it])
          (acc.map Prod.fst) := by
  intro items
  induction items with
  | nil => intro acc; rfl
  | cons it rest ih =>
    intro acc
    simp only [List.foldl_cons]
    rw [ih]
    congr 1
    rw [mapFst_bumpKey]
    by_cases h : f it ∈ acc.map Prod.fst <;>
      simp [containsKey_iff, h]

/-- The customer dictionary holds, for each customer id, the number of
records whose defaulted customer id is that id. -/
theorem customerCounts_lookup (items : List Item) (cid : String) :
    lookupD (customerCounts items) cid 0 =
      (items.map itemCustomer).count cid := by
  unfold customerCounts
  rw [lookupD_foldl_bumpKey]
  simp only [lookupD, List.count, List.countP_map, Nat.zero_add]
  rfl

/-- The keys of the customer dictionary appear in first-seen order. -/
theorem customerCounts_mapFst (items : List Item) :
    (customerCounts items).map Prod.fst =
      firstOccur (items.map itemCustomer) := by
  unfold customerCounts firstOccur
  rw [List.foldl_map]
  simpa using mapFst_foldl_bumpKey itemCustomer items []

/-- Ordered insertion keeps, within each count class, the relative order of
the list it inserts into, placing the new element in front of its class. -/
theorem filter_orderedInsert (x : String × Nat) (c : Nat) :
    ∀ l : List (String × Nat),
      (List.orderedInsert custRel x l).filter (fun p => p.2 == c) =
        if x.2 = c then x :: l.filter (fun p => p.2 == c)
        else l.filter (fun p => p.2 == c) := by
  intro l
  induction l with
  | nil =>
    by_cases hx : x.2 = c <;>
      simp [List.orderedInsert, List.filter_cons, hx]
  | cons y ys ih =>
    by_cases hxy : custRel x y
    · rw [List.orderedInsert, if_pos hxy]
      by_cases hx : x.2 = c <;> by_cases hy : y.2 = c <;>
        simp [List.filter_cons, hx, hy]
    · rw [List.orderedInsert, if_neg hxy]
      by_cases hx : x.2 = c
      · have hy : y.2 ≠ c := by
          intro hh
          exact hxy (show y.2 ≤ x.2 by omega)
        simp [List.filter_cons, hx, hy, ih]
      · by_cases hy : y.2 = c <;> simp [List.filter_cons, hx, hy, ih]

/-- Stability of the insertion sort used for top customers: filtering the
sorted list at any count gives the same sequence as filtering the input. -/
theorem filter_insertionSort (c : Nat) :
    ∀ l : List (String × Nat),
      (List.insertionSort custRel l).filter (fun p => p.2 == c) =
        l.filter (fun p => p.2 == c) := by
  intro l
  induction l with
  | nil => rfl
  | cons x xs ih =>
    simp only [List.insertionSort]
    rw [filter_orderedInsert]
    by_cases hx : x.2 = c <;> simp [hx, ih, List.filter_cons]

/-- Success of the engine, unpacked into the loop and the post-processing. -/
theorem calculate_analytics_some {items : List Item} {a : Analytics}
    (h : calculate_analytics items = some a) :
    ∃ st, processItems initState items = some st ∧ a = postprocess items st := by
  unfold calculate_analytics at h
  rcases hp : processItems initState items with _ | st
  · rw [hp] at h; exact absurd h (by simp)
  · rw [hp] at h
    simp only [Option.map_some'] at h
    exact ⟨st, rfl, (Option.some.inj h).symm⟩

/-- Concrete run: one record of customer `A`. -/
theorem eval_itemA : calculate_analytics [itemA] = some analyticsA := by
  simp [calculate_analytics, processItems, processItem, categoryMap0,
    containsKey, lookupD, bumpExisting, bumpKey, setKey, itemSentiment,
    itemCategory, itemCustomer, itemScore, zeroSeedCounts, zeroSeedScores,
    initState, postprocess, itemA, analyticsA, roundTo,
    List.insertionSort, List.orderedInsert, custRel]
  norm_num [round_eq]

/-- Concrete run: the positive/negative pair of the spec example. -/
theorem eval_posneg : calculate_analytics [posItem, negItem]
    = some analyticsPN := by
  simp [calculate_analytics, processItems, processItem, categoryMap0,
    containsKey, lookupD, bumpExisting, bumpKey, setKey, itemSentiment,
    itemCategory, itemCustomer, itemScore, zeroSeedCounts, zeroSeedScores,
    initState, postprocess, posItem, negItem, analyticsPN, roundTo,
    List.insertionSort, List.orderedInsert, custRel]
  norm_num [round_eq]

/-- Concrete run: one record with no sentiment field. -/
theorem eval_noSent : calculate_analytics [noSentItem]
    = some analyticsNS := by
  simp [calculate_analytics, processItems, processItem, categoryMap0,
    containsKey, lookupD, bumpExisting, bumpKey, setKey, itemSentiment,
    itemCategory, itemCustomer, itemScore, zeroSeedCounts, zeroSeedScores,
    initState, postprocess, noSentItem, analyticsNS, roundTo,
    List.insertionSort, List.orderedInsert, custRel]
  norm_num [round_eq]

/-- Concrete run: the 0.8/0.4 averaging pair of the spec example. -/
theorem eval_scores : calculate_analytics [score08Item, score04Item]
    = some analytics84 := by
  simp [calculate_analytics, processItems, processItem, categoryMap0,
    containsKey, lookupD, bumpExisting, bumpKey, setKey, itemSentiment,
    itemCategory, itemCustomer, itemScore, zeroSeedCounts, zeroSeedScores,
    initState, postprocess, score08Item, score04Item, analytics84, roundTo,
    List.insertionSort, List.orderedInsert, custRel]
  norm_num [round_eq]

/-- C3: on every batch the engine accepts, `top_customers` is a take-10 of a
reordering of the per-customer count dictionary that is sorted by count
descending and, within each count class, keeps the order of that dictionary;
the dictionary counts records per defaulted customer id and lists customers
in first-seen order; and on eleven records of `A` followed by three of `B`
the output lists `A` before `B` with counts 11 and 3. -/
theorem claim3_top_customers :
    (∀ (items : List Item) (a : Analytics), calculate_analytics items = some a →
      ∃ ranked : List (String × Nat),
        ranked.Perm (customerCounts items) ∧
        List.Sorted custRel ranked ∧
        (∀ c : Nat, ranked.filter (fun p => p.2 == c) =
          (customerCounts items).filter (fun p => p.2 == c)) ∧
        a.top_customers = ranked.take 10) ∧
    (∀ (items : List Item) (cid : String),
      lookupD (customerCounts items) cid 0 =
        (items.map itemCustomer).count cid) ∧
    (∀ items : List Item,
      (customerCounts items).map Prod.fst =
        firstOccur (items.map itemCustomer)) ∧
    (calculate_analytics
        (List.replicate 11 itemA ++ List.replicate 3 itemB)).map
      Analytics.top_customers = some [("A", 11), ("B", 3)] := by
  refine ⟨?_, customerCounts_lookup, customerCounts_mapFst, by decide⟩
  intro items a h
  obtain ⟨st, hp, rfl⟩ := calculate_analytics_some h
  have hcust : st.customer_feedback_count = customerCounts items :=
    processItems_customer items hp
  refine ⟨List.insertionSort custRel (customerCounts items),
    List.perm_insertionSort custRel _,
    List.sorted_insertionSort custRel _,
    fun c => filter_insertionSort c _,
    ?_⟩
  show (List.insertionSort custRel st.customer_feedback_count).take 10 = _
  rw [hcust]

/-- C3 (witness): the statement instantiated on the single-record batch of
customer `A`. -/
theorem claim3_witness :
    ∃ ranked : List (String × Nat),
      ranked.Perm (customerCounts [itemA]) ∧
      List.Sorted custRel ranked ∧
      (∀ c : Nat, ranked.filter (fun p => p.2 == c) =
        (customerCounts [itemA]).filter (fun p => p.2 == c)) ∧
      analyticsA.top_customers = ranked.take 10 :=
  claim3_top_customers.1 [itemA] analyticsA eval_itemA

/-- C4: on every batch the engine accepts and for each of the four fixed
score dimensions, the reported average is the per-record sum of that
dimension (missing maps and dimensions contributing 0) divided by the batch
size and rounded to 4 digits, and it is 0 on the empty batch. -/
theorem claim4_average_scores :
    ∀ (items : List Item) (a : Analytics), calculate_analytics items = some a →
      ∀ k : String, k ∈ ["positive", "negative", "neutral", "mixed"] →
        lookupD a.average_sentiment_scores k 0 =
          if items.length = 0 then 0
          else roundTo 4 (scoreSum items k / items.length) := by
  intro items a h k hk
  obtain ⟨st, hp, rfl⟩ := calculate_analytics_some h
  have havg := processItems_avg items hp
  by_cases hn : items.length = 0
  · have hitems : items = [] := List.length_eq_zero.mp hn
    subst hitems
    simp only [processItems, Option.some.injEq] at hp
    subst hp
    simp [postprocess, initState, lookupD_zeroSeedScores]
  · have hpos : 0 < items.length := Nat.pos_of_ne_zero hn
    rw [if_neg hn]
    have hfield : (postprocess items st).average_sentiment_scores =
        st.avg_scores.map
          (fun p => (p.1, roundTo 4 (p.2 / (items.length : ℚ)))) := by
      simp [postprocess, hpos]
    rw [hfield, havg]
    simp only [initState, zeroSeedScores, List.map_map, List.map_cons,
      List.map_nil, Function.comp, zero_add]
    fin_cases hk <;> simp [lookupD]

/-- C4 (witness): the statement instantiated on the 0.8/0.4 batch of the
spec example, at the positive dimension. -/
theorem claim4_witness :
    lookupD analytics84.average_sentiment_scores "positive" 0 =
      if ([score08Item, score04Item] : List Item).length = 0 then 0
      else roundTo 4 (scoreSum [score08Item, score04Item] "positive" /
        (([score08Item, score04Item] : List Item).length : ℚ)) :=
  claim4_average_scores [score08Item, score04Item] analytics84 eval_scores
    "positive" (by simp)

/-- C5: on every non-empty batch the engine accepts, each key of the
sentiment distribution is reported in `sentiment_percentages` as 100 times
its count over the batch size, rounded to 2 digits; and on one POSITIVE plus
one NEGATIVE record the distribution is 1/1/0/0 and the percentages are
50/50/0/0. -/
theorem claim5_percentages :
    (∀ (items : List Item) (a : Analytics), calculate_analytics items = some a →
      0 < items.length →
      ∀ (k : String) (c : Nat), (k, c) ∈ a.sentiment_distribution →
        lookupD a.sentiment_percentages k 0 =
          roundTo 2 (100 * (c : ℚ) / (items.length : ℚ))) ∧
    (calculate_analytics [posItem, negItem]).map Analytics.sentiment_distribution
      = some [("POSITIVE", 1), ("NEGATIVE", 1), ("NEUTRAL", 0), ("MIXED", 0)] ∧
    (calculate_analytics [posItem, negItem]).map Analytics.sentiment_percentages
      = some [("POSITIVE", 50), ("NEGATIVE", 50), ("NEUTRAL", 0), ("MIXED", 0)] := by
  refine ⟨?_, by rw [eval_posneg]; rfl, by rw [eval_posneg]; rfl⟩
  intro items a h hpos k c hmem
  obtain ⟨st, hp, rfl⟩ := calculate_analytics_some h
  have hnd : (st.sentiment_counts.map Prod.fst).Nodup :=
    processItems_nodup items hp (by decide)
  have hmem' : (k, c) ∈ st.sentiment_counts := hmem
  have hfield : (postprocess items st).sentiment_percentages =
      st.sentiment_counts.map
        (fun p => (p.1, roundTo 2 ((p.2 : ℚ) / (items.length : ℚ) * 100))) := by
    simp [postprocess, hpos]
  rw [hfield]
  exact (lookupD_map_of_mem
      (fun v : Nat => roundTo 2 ((v : ℚ) / (items.length : ℚ) * 100))
      0 st.sentiment_counts k c hnd hmem').trans (by congr 1; ring)

/-- C5 (witness): the statement instantiated on the POSITIVE/NEGATIVE pair
at the POSITIVE key. -/
theorem claim5_witness :
    lookupD analyticsPN.sentiment_percentages "POSITIVE" 0 =
      roundTo 2 (100 * ((1 : Nat) : ℚ) /
        (([posItem, negItem] : List Item).length : ℚ)) :=
  claim5_percentages.1 [posItem, negItem] analyticsPN eval_posneg (by decide)
    "POSITIVE" 1 (by decide)

/-- C8: the engine is deterministic, and the surrounding `get_analytics`
depends on the clock only through the timestamp it attaches after the
engine ran: erasing the timestamp makes two runs at different times equal. -/
theorem claim8_deterministic :
    (∀ items : List Item,
      calculate_analytics items = calculate_analytics items) ∧
    (∀ (scanFn : Nat → Except String (List Item)) (limit : Nat)
      (t1 t2 : String),
      eraseTimestamp (get_analytics scanFn t1 limit) =
        eraseTimestamp (get_analytics scanFn t2 limit)) := by
  refine ⟨fun _ => rfl, ?_⟩
  intro scanFn limit t1 t2
  unfold get_analytics
  cases hs : scanFn limit with
  | error e => simp [eraseTimestamp]
  | ok items =>
    cases hc : calculate_analytics items <;> simp [hc, eraseTimestamp]

/-- C9: on every batch the engine accepts, a record with no sentiment field
defaults to `NEUTRAL`, and the `NEUTRAL` cells of the distribution and of
each category of the breakdown count exactly the records whose defaulted
sentiment is `NEUTRAL`, so such records are counted under `NEUTRAL` in
both. -/
theorem claim9_missing_sentiment_neutral :
    ∀ (items : List Item) (a : Analytics), calculate_analytics items = some a →
      (∀ it : Item, it.sentiment = none → itemSentiment it = "NEUTRAL") ∧
      lookupD a.sentiment_distribution "NEUTRAL" 0 =
        items.countP (fun it => itemSentiment it == "NEUTRAL") ∧
      (∀ c : String,
        lookupD (lookupD a.category_breakdown c []) "NEUTRAL" 0 =
          items.countP
            (fun it => itemCategory it == c && itemSentiment it == "NEUTRAL")) := by
  intro items a h
  obtain ⟨st, hp, rfl⟩ := calculate_analytics_some h
  refine ⟨fun it hit => by simp [itemSentiment, hit], ?_, ?_⟩
  · have hcnt := processItems_sentiment_counts items hp "NEUTRAL"
    show lookupD st.sentiment_counts "NEUTRAL" 0 = _
    rw [hcnt]
    simp [initState, lookupD_zeroSeedCounts]
  · intro c
    have hcat := processItems_category items hp c "NEUTRAL"
    show lookupD (lookupD st.category_sentiment c []) "NEUTRAL" 0 = _
    rw [hcat]
    simp [initState, lookupD]

/-- C9 (witness): the statement instantiated on one record with no
sentiment field. -/
theorem claim9_witness :
    lookupD analyticsNS.sentiment_distribution "NEUTRAL" 0 =
      ([noSentItem] : List Item).countP
        (fun it => itemSentiment it == "NEUTRAL") :=
  (claim9_missing_sentiment_neutral [noSentItem] analyticsNS eval_noSent).2.1

/-- C10: on every batch the engine accepts, the counts of the returned
sentiment distribution sum to `total_feedback`, which is the length of the
batch. -/
theorem claim10_distribution_sum :
    ∀ (items : List Item) (a : Analytics), calculate_analytics items = some a →
      sumCounts a.sentiment_distribution = a.total_feedback ∧
      a.total_feedback = items.length := by
  intro items a h
  obtain ⟨st, hp, rfl⟩ := calculate_analytics_some h
  have htot := processItems_total items hp
  refine ⟨?_, rfl⟩
  show sumCounts st.sentiment_counts = items.length
  rw [htot]
  simp [initState, sumCounts, zeroSeedCounts]

/-- C10 (witness): the statement instantiated on the single-record batch of
customer `A`. -/
theorem claim10_witness :
    sumCounts analyticsA.sentiment_distribution = analyticsA.total_feedback ∧
    analyticsA.total_feedback = ([itemA] : List Item).length :=
  claim10_distribution_sum [itemA] analyticsA eval_itemA

end FeedbackAnalysis
